import Mathlib

/-!
Verification of the goals-file parser and goal sequencer of
`src/ros/ardros/nodes/GoalsSequencer.py`.

The Python module is embedded shallowly:

* Python strings are `List Char`; `str.strip`, `str.split(sep)` and
  `str.startswith` are modelled by `pyStrip`, `pySplit` and `pyStartsWith`
  with Python semantics (splitting on every separator occurrence keeps
  empty parts; stripping removes ASCII whitespace on both ends).
* The builtin `float(...)` applied to a stripped string is modelled by
  `pyFloat?`, which parses the numeric literal grammar
  (sign, digits, optional decimal point, optional exponent) into `ℚ` and
  returns `none` exactly when the literal is rejected.  The special
  words `inf` and `nan` are outside the model; no claim involves them.
* Python exceptions are the error side of `Except PyErr`; an
  out-of-range list subscript is `PyErr.indexError`, a raised
  `NameError` carries the expected and found variable names, and the
  `ValueError` raised by `float` carries the offending segment.
* The ROS/actionlib side of the sequencer is represented by a trace of
  observable events (`Event`): console prints, goal submissions and
  `rospy` log lines.
-/

deriving instance DecidableEq for Except

set_option maxRecDepth 8000

namespace Ardros

/-- Python ASCII whitespace, as removed by `str.strip()`. -/
def pyIsSpace (c : Char) : Bool :=
  c = ' ' || c = '\t' || c = '\n' || c = '\x0b' || c = '\x0c' || c = '\r'

/-- Model of Python `str.strip()`: drop whitespace from both ends. -/
def pyStrip (s : List Char) : List Char :=
  ((s.dropWhile pyIsSpace).reverse.dropWhile pyIsSpace).reverse

/-- Model of Python `str.split(sep)` for a one-character separator:
split on every occurrence, keeping empty parts, so the result always has
one part more than the number of separator occurrences. -/
def pySplit (sep : Char) : List Char → List (List Char)
  | [] => [[]]
  | c :: rest =>
    if c = sep then [] :: pySplit sep rest
    else
      match pySplit sep rest with
      | [] => [[c]]
      | p :: ps => (c :: p) :: ps

/-- Model of Python `str.startswith(p)`. -/
def pyStartsWith : List Char → List Char → Bool
  | [], _ => true
  | _ :: _, [] => false
  | p :: ps, c :: cs => p = c && pyStartsWith ps cs

/-- Value of a list of decimal digits, most significant first. -/
def digitsVal (ds : List Char) : Nat :=
  ds.foldl (fun acc c => 10 * acc + (c.toNat - '0'.toNat)) 0

/-- Model of the Python builtin `float(...)` on an already stripped
string, restricted to the numeric literal grammar
`[+-] digits [. digits] [(e|E) [+-] digits]` (at least one digit before
or after the point).  Returns the exact value as a rational, or `none`
when `float` would raise `ValueError`. -/
def pyFloat? (s : List Char) : Option ℚ :=
  let sgnRest : ℚ × List Char :=
    match s with
    | '+' :: r => (1, r)
    | '-' :: r => (-1, r)
    | r => (1, r)
  let intPart := sgnRest.2.span Char.isDigit
  let fracPart : List Char × List Char :=
    match intPart.2 with
    | '.' :: r => r.span Char.isDigit
    | r => ([], r)
  if intPart.1.isEmpty && fracPart.1.isEmpty then none
  else
    let mantissa : ℚ :=
      (digitsVal (intPart.1 ++ fracPart.1) : ℚ) / (10 : ℚ) ^ fracPart.1.length
    match fracPart.2 with
    | [] => some (sgnRest.1 * mantissa)
    | e :: r =>
      if e = 'e' || e = 'E' then
        let expRest : Bool × List Char :=
          match r with
          | '+' :: rr => (false, rr)
          | '-' :: rr => (true, rr)
          | rr => (false, rr)
        let expPart := expRest.2.span Char.isDigit
        if expPart.1.isEmpty || !expPart.2.isEmpty then none
        else
          let p : ℚ := (10 : ℚ) ^ digitsVal expPart.1
          some (sgnRest.1 * mantissa * (if expRest.1 then 1 / p else p))
      else none

/-- The Python exceptions the parser can raise: an out-of-range list
subscript (`IndexError`), the `NameError` raised by `_ExtractValue` with
the expected and the found variable name, and the `ValueError` raised by
`float` with the rejected value segment. -/
inductive PyErr where
  | indexError : PyErr
  | nameError (expected found : List Char) : PyErr
  | valueError (segment : List Char) : PyErr
deriving DecidableEq

/-- A goal record, the `(x, y, theta)` tuple built by `_ParseLine`;
the spec calls it GoalRecord.  The scalar type is a parameter: the
parser produces exact `ℚ` values, the orientation theorems use `ℝ`. -/
structure GoalRecord (α : Type) where
  x : α
  y : α
  theta : α
deriving DecidableEq

/-- Embedding of `GoalsFileParser._ExtractValue` (source lines 95-109):
split the field on `=`, check that the stripped text before the first
`=` is the expected variable name (raising `NameError` otherwise), then
convert the stripped text after it with `float` (raising `ValueError`
on a malformed number, `IndexError` when there is no `=` at all). -/
def _ExtractValue (variableName : List Char) (linePart : List Char) : Except PyErr ℚ :=
  let nameValueParts := pySplit '=' linePart
  match nameValueParts[0]? with
  | none => Except.error PyErr.indexError
  | some seg0 =>
    if pyStrip seg0 ≠ variableName then
      Except.error (PyErr.nameError variableName (pyStrip seg0))
    else
      match nameValueParts[1]? with
      | none => Except.error PyErr.indexError
      | some seg1 =>
        match pyFloat? (pyStrip seg1) with
        | none => Except.error (PyErr.valueError (pyStrip seg1))
        | some v => Except.ok v

/-- The two-character comment marker `//`. -/
def commentMarker : List Char := ['/', '/']

/-- The expected variable name of the first field. -/
def nameX : List Char := ['x']

/-- The expected variable name of the second field. -/
def nameY : List Char := ['y']

/-- The expected variable name of the third field. -/
def nameTheta : List Char := ['t', 'h', 'e', 't', 'a']

/-- The record-extraction section of `_ParseLine` (source lines 87-92):
subscript parts 0, 1 and 2 of the comma-split line (raising
`IndexError` past the end) and extract the `x`, `y` and `theta` fields
in that order, the first exception aborting the rest. -/
def extractFields (lineParts : List (List Char)) : Except PyErr (GoalRecord ℚ) :=
  match lineParts[0]? with
  | none => Except.error PyErr.indexError
  | some part0 =>
    match _ExtractValue nameX part0 with
    | Except.error e => Except.error e
    | Except.ok xv =>
      match lineParts[1]? with
      | none => Except.error PyErr.indexError
      | some part1 =>
        match _ExtractValue nameY part1 with
        | Except.error e => Except.error e
        | Except.ok yv =>
          match lineParts[2]? with
          | none => Except.error PyErr.indexError
          | some part2 =>
            match _ExtractValue nameTheta part2 with
            | Except.error e => Except.error e
            | Except.ok tv => Except.ok { x := xv, y := yv, theta := tv }

/-- Embedding of `GoalsFileParser._ParseLine` (source lines 77-93):
strip the line; a line starting with `//` or stripping to empty yields
no record (`Except.ok none`); otherwise split on `,` and extract the
three fields, any exception propagating unchanged. -/
def _ParseLine (line : List Char) : Except PyErr (Option (GoalRecord ℚ)) :=
  let trimmedLine := pyStrip line
  if pyStartsWith commentMarker trimmedLine = true then Except.ok none
  else if trimmedLine.length = 0 then Except.ok none
  else
    match extractFields (pySplit ',' trimmedLine) with
    | Except.error e => Except.error e
    | Except.ok g => Except.ok (some g)

/-- A line is ignored when its stripped content starts with `//` or is
empty; this is the guard pair at the top of `_ParseLine`. -/
def ignoredLine (line : List Char) : Bool :=
  pyStartsWith commentMarker (pyStrip line) || (pyStrip line).length == 0

/-- True when `_ParseLine` does not raise on this line. -/
def parseOk (line : List Char) : Bool :=
  match _ParseLine line with
  | Except.ok _ => true
  | Except.error _ => false

/-- The record contributed by a line: `some` exactly on a successfully
parsed goal line, `none` on ignored lines and on raising lines. -/
def recordOf? (line : List Char) : Option (GoalRecord ℚ) :=
  match _ParseLine line with
  | Except.ok (some g) => some g
  | _ => none

/-- Embedding of the loop body of `GoalsFileParser.Parse` (source lines
68-75): fold `_ParseLine` over the file lines in order, appending each
returned goal and aborting on the first exception. -/
def ParseLines : List (List Char) → Except PyErr (List (GoalRecord ℚ))
  | [] => Except.ok []
  | l :: ls =>
    match _ParseLine l with
    | Except.error e => Except.error e
    | Except.ok none => ParseLines ls
    | Except.ok (some g) =>
      match ParseLines ls with
      | Except.error e => Except.error e
      | Except.ok gs => Except.ok (g :: gs)

/-- The one mutable attribute of the Python `GoalsFileParser` object:
`self._GoalsFilePath`, assigned at the start of `Parse`. -/
structure GoalsFileParser where
  _GoalsFilePath : Option (List Char)

/-- Embedding of `GoalsFileParser.Parse` (source lines 62-75): record
the file path on the parser object, then parse the lines read from the
file (the file content is passed as its list of lines).  Returns the
updated object together with the result. -/
def Parse (self : GoalsFileParser) (filePath : List Char)
    (fileLines : List (List Char)) :
    GoalsFileParser × Except PyErr (List (GoalRecord ℚ)) :=
  ({ self with _GoalsFilePath := some filePath }, ParseLines fileLines)

/-- The `actionlib_msgs` terminal status code `GoalStatus.SUCCEEDED`. -/
def GoalStatus.SUCCEEDED : Nat := 3

/-- The `geometry_msgs.msg.Quaternion` message structure: four scalar
members `x`, `y`, `z`, `w`. -/
structure Quaternion (α : Type) where
  x : α
  y : α
  z : α
  w : α
deriving DecidableEq

/-- The parts of a `MoveBaseGoal` message that `_CreateMoveBaseGoal`
fills in: `target_pose.header.frame_id`, `target_pose.header.stamp`,
`target_pose.pose.position.x`, `.y` (`.z` keeps its zero default) and
`target_pose.pose.orientation`. -/
structure MoveBaseGoal (α : Type) where
  frame_id : List Char
  stamp : Nat
  position_x : α
  position_y : α
  position_z : α
  orientation : Quaternion α
deriving DecidableEq

/-- Modelled from the spec: the external utility
`tf.transformations.quaternion_about_axis(angle, (0, 0, 1))`, which the
spec directs to treat as a pure utility computing the standard
half-angle formula for a rotation about the vertical axis — the array
`(0, 0, sin(angle/2), cos(angle/2))` in `(x, y, z, w)` member order.
The trigonometric functions of the ambient math library are passed in
as the arguments `sin` and `cos`. -/
def quaternion_about_axis [Zero α] [Div α] [OfNat α 2]
    (sin cos : α → α) (angle : α) : Fin 4 → α :=
  fun i =>
    match i with
    | ⟨0, _⟩ => 0
    | ⟨1, _⟩ => 0
    | ⟨2, _⟩ => sin (angle / 2)
    | ⟨3, _⟩ => cos (angle / 2)

/-- Embedding of `GoalsSequencer.array_to_quaternion` (source lines
163-173): copy members 0-3 of the array into a `Quaternion` message as
`x`, `y`, `z`, `w`. -/
def array_to_quaternion (nparr : Fin 4 → α) : Quaternion α :=
  { x := nparr 0, y := nparr 1, z := nparr 2, w := nparr 3 }

/-- Embedding of the pure part of `GoalsSequencer._CreateMoveBaseGoal`
(source lines 141-161): build the `MoveBaseGoal` from the record, the
frame id bound at construction and the current time stamp; position
`z` stays at its zero message default and the orientation is the
z-axis quaternion of `theta`.  The `print(moveBaseGoal)` side effect
of the Python method is emitted by the caller in the event trace. -/
def _CreateMoveBaseGoal [Zero α] [Div α] [OfNat α 2] (sin cos : α → α)
    (goalFrameId : List Char) (now : Nat) (goal : GoalRecord α) : MoveBaseGoal α :=
  { frame_id := goalFrameId
    stamp := now
    position_x := goal.x
    position_y := goal.y
    position_z := 0
    orientation := array_to_quaternion (quaternion_about_axis sin cos goal.theta) }

/-- The observable effects of the sequencer: the two `print` calls
(the announcement in `NavigateToGoals` and the `print(moveBaseGoal)`
in `_CreateMoveBaseGoal`), the goal submission
`self._Client.send_goal(...)`, and the `rospy.loginfo` and
`rospy.logerr` lines. -/
inductive Event (α : Type) where
  | printNav (goal : GoalRecord α) : Event α
  | printGoalMsg (msg : MoveBaseGoal α) : Event α
  | sendGoal (msg : MoveBaseGoal α) : Event α
  | loginfo (text : List Char) : Event α
  | logerr (text : List Char) : Event α
deriving DecidableEq

/-- The `rospy.loginfo` text on a succeeded goal. -/
def reachedMsg : List Char := "Goal reached".data

/-- The `rospy.logerr` text on any other terminal status. -/
def failedMsg : List Char := "Could not execute goal for some reason".data

/-- The state a `GoalsSequencer` object closes over, together with its
external collaborators: `_GoalFrameId` is the frame id bound in
`__init__`; `sin` and `cos` stand for the ambient trigonometry used by
`tf.transformations`; `clock i` is the value `rospy.Time.now()` returns
while the `i`-th goal is being built; `service i` is the terminal
status `self._Client.get_state()` reports after waiting for the `i`-th
submitted goal. -/
structure GoalsSequencer (α : Type) where
  _GoalFrameId : List Char
  sin : α → α
  cos : α → α
  clock : Nat → Nat
  service : Nat → Nat

/-- The request the sequencer builds for the `i`-th goal record. -/
def requestFor [Zero α] [Div α] [OfNat α 2] (self : GoalsSequencer α)
    (i : Nat) (goal : GoalRecord α) : MoveBaseGoal α :=
  _CreateMoveBaseGoal self.sin self.cos self._GoalFrameId (self.clock i) goal

/-- Embedding of `GoalsSequencer._NavigateToGoal` (source lines
131-139) for the `i`-th goal: build the request (printing it, the side
effect inside `_CreateMoveBaseGoal`), submit it, wait for the terminal
status, and log `Goal reached` at info severity when it is SUCCEEDED
and the failure text at error severity otherwise. -/
def _NavigateToGoal [Zero α] [Div α] [OfNat α 2] (self : GoalsSequencer α)
    (i : Nat) (goal : GoalRecord α) : List (Event α) :=
  let moveBaseGoal := requestFor self i goal
  [Event.printGoalMsg moveBaseGoal,
   Event.sendGoal moveBaseGoal,
   if self.service i = GoalStatus.SUCCEEDED then Event.loginfo reachedMsg
   else Event.logerr failedMsg]

/-- The loop of `GoalsSequencer.NavigateToGoals` (source lines 126-129)
started at goal index `i`: announce each goal and run
`_NavigateToGoal` on it, then continue with the rest of the list. -/
def NavigateToGoalsFrom [Zero α] [Div α] [OfNat α 2] (self : GoalsSequencer α) :
    Nat → List (GoalRecord α) → List (Event α)
  | _, [] => []
  | i, g :: gs =>
    (Event.printNav g :: _NavigateToGoal self i g) ++
      NavigateToGoalsFrom self (i + 1) gs

/-- Embedding of `GoalsSequencer.NavigateToGoals` (source lines
126-129): process the whole goal list from index 0. -/
def NavigateToGoals [Zero α] [Div α] [OfNat α 2] (self : GoalsSequencer α)
    (goals : List (GoalRecord α)) : List (Event α) :=
  NavigateToGoalsFrom self 0 goals

/-- The request submitted by an event, when it is a submission. -/
def submissionOf? : Event α → Option (MoveBaseGoal α)
  | Event.sendGoal m => some m
  | _ => none

/-- The outcome reported by an event, when it is an outcome log line:
`true` for an info line, `false` for an error line. -/
def outcomeOf? : Event α → Option Bool
  | Event.loginfo _ => some true
  | Event.logerr _ => some false
  | _ => none

/-- True on the per-goal effects the spec names: the announcement
print, the goal submission, and the info and error outcome log lines.
False only on the `print(moveBaseGoal)` debug output of
`_CreateMoveBaseGoal`, which the spec does not mention. -/
def claimedEffect : Event α → Bool
  | Event.printGoalMsg _ => false
  | _ => true

/-- The block of events one goal contributes to the trace. -/
def perGoalTrace [Zero α] [Div α] [OfNat α 2] (self : GoalsSequencer α)
    (i : Nat) (g : GoalRecord α) : List (Event α) :=
  [Event.printNav g,
   Event.printGoalMsg (requestFor self i g),
   Event.sendGoal (requestFor self i g),
   if self.service i = GoalStatus.SUCCEEDED then Event.loginfo reachedMsg
   else Event.logerr failedMsg]

/-- A concrete integer-valued sequencer whose navigation service
reports SUCCEEDED on every goal except the second, which it aborts
(status 4). -/
def demoSequencer3 : GoalsSequencer ℤ :=
  { _GoalFrameId := "/map".data
    sin := fun _ => 0
    cos := fun _ => 1
    clock := fun i => i
    service := fun i => if i = 1 then 4 else GoalStatus.SUCCEEDED }

/-- The three-goal sequence of the success, failure, success test. -/
def demoGoals3 : List (GoalRecord ℤ) :=
  [{ x := 1, y := 0, theta := 0 },
   { x := 2, y := 0, theta := 0 },
   { x := 3, y := 0, theta := 0 }]

/-- A concrete integer-valued sequencer whose navigation service
reports SUCCEEDED on every goal. -/
def demoSequencer1 : GoalsSequencer ℤ :=
  { _GoalFrameId := "/map".data
    sin := fun _ => 0
    cos := fun _ => 1
    clock := fun _ => 0
    service := fun _ => GoalStatus.SUCCEEDED }

/-- The sample file content shown in the `GoalsFileParser` docstring,
with a trailing blank line. -/
def demoFile : List (List Char) :=
  ["// End of first hall way leg".data,
   "x = 0.705669820309, y = 3.92879199982, theta = -0.712161728691".data,
   "x = 2.3, y = 0.4, theta = 1.1".data,
   "".data]

example : pySplit ',' "a,,b".data = ["a".data, [], "b".data] := by with_unfolding_all decide
example : pyStrip "  x = 1.5 ".data = "x = 1.5".data := by with_unfolding_all decide
example : pyFloat? "1.5".data = some (3 / 2) := by with_unfolding_all decide
example : pyFloat? "-2.25".data = some (-9 / 4) := by with_unfolding_all decide
example : pyFloat? "1e3".data = some 1000 := by with_unfolding_all decide
example : pyFloat? "1.5E-1".data = some (3 / 20) := by with_unfolding_all decide
example : pyFloat? "abc".data = none := by with_unfolding_all decide
example : pyFloat? "".data = none := by with_unfolding_all decide
example : pyFloat? ".5".data = some (1 / 2) := by with_unfolding_all decide
example : pyFloat? "1.".data = some 1 := by with_unfolding_all decide
example : pyFloat? ".".data = none := by with_unfolding_all decide
example :
    _ParseLine "x = 1.5, y = -2.25, theta = 0.0".data =
      Except.ok (some { x := 3 / 2, y := -9 / 4, theta := 0 }) := by with_unfolding_all decide
example : _ParseLine "// comment".data = Except.ok none := by with_unfolding_all decide
example : _ParseLine "   ".data = Except.ok none := by with_unfolding_all decide
example :
    _ParseLine "y = 1.5, x = -2.25, theta = 0.0".data =
      Except.error (PyErr.nameError nameX nameY) := by with_unfolding_all decide
example :
    _ParseLine "x = abc, y = 1.0, theta = 0.0".data =
      Except.error (PyErr.valueError ['a', 'b', 'c']) := by with_unfolding_all decide
example : _ParseLine "x = 1.0, y = 2.0".data = Except.error PyErr.indexError := by
  with_unfolding_all decide
example :
    _ParseLine "x, y = 1.0, theta = 2.0".data = Except.error PyErr.indexError := by
  with_unfolding_all decide
example :
    _ParseLine "x = 1.0, y = 2.0, theta = 3.0, z = 4.0".data =
      Except.ok (some { x := 1, y := 2, theta := 3 }) := by with_unfolding_all decide

theorem extract_name_mismatch (name part seg : List Char)
    (h0 : (pySplit '=' part)[0]? = some seg) (h : pyStrip seg ≠ name) :
    _ExtractValue name part = Except.error (PyErr.nameError name (pyStrip seg)) := by
  simp only [_ExtractValue]
  rw [h0]
  simp [h]

theorem extract_value_error (name part seg0 seg1 : List Char)
    (h0 : (pySplit '=' part)[0]? = some seg0) (hn : pyStrip seg0 = name)
    (h1 : (pySplit '=' part)[1]? = some seg1)
    (hv : pyFloat? (pyStrip seg1) = none) :
    _ExtractValue name part = Except.error (PyErr.valueError (pyStrip seg1)) := by
  simp [_ExtractValue, h0, hn, h1, hv]

theorem extractFields_ok_iff (ps : List (List Char)) (g : GoalRecord ℚ) :
    extractFields ps = Except.ok g ↔
      ∃ p0 p1 p2,
        ps[0]? = some p0 ∧ ps[1]? = some p1 ∧ ps[2]? = some p2 ∧
        _ExtractValue nameX p0 = Except.ok g.x ∧
        _ExtractValue nameY p1 = Except.ok g.y ∧
        _ExtractValue nameTheta p2 = Except.ok g.theta := by
  constructor
  · intro h
    unfold extractFields at h
    cases h0 : ps[0]? with
    | none => rw [h0] at h; simp at h
    | some p0 =>
    rw [h0] at h
    simp only [] at h
    cases hx : _ExtractValue nameX p0 with
    | error e => rw [hx] at h; simp at h
    | ok xv =>
    rw [hx] at h
    simp only [] at h
    cases h1 : ps[1]? with
    | none => rw [h1] at h; simp at h
    | some p1 =>
    rw [h1] at h
    simp only [] at h
    cases hy : _ExtractValue nameY p1 with
    | error e => rw [hy] at h; simp at h
    | ok yv =>
    rw [hy] at h
    simp only [] at h
    cases h2 : ps[2]? with
    | none => rw [h2] at h; simp at h
    | some p2 =>
    rw [h2] at h
    simp only [] at h
    cases ht : _ExtractValue nameTheta p2 with
    | error e => rw [ht] at h; simp at h
    | ok tv =>
    rw [ht] at h
    simp only [Except.ok.injEq] at h
    subst h
    exact ⟨p0, p1, p2, rfl, rfl, rfl, hx, hy, ht⟩
  · rintro ⟨p0, p1, p2, h0, h1, h2, hx, hy, ht⟩
    simp [extractFields, h0, hx, h1, hy, h2, ht]

theorem parseLine_not_ignored (line : List Char) (h : ignoredLine line = false) :
    _ParseLine line =
      match extractFields (pySplit ',' (pyStrip line)) with
      | Except.error e => Except.error e
      | Except.ok g => Except.ok (some g) := by
  simp only [ignoredLine, Bool.or_eq_false_iff] at h
  obtain ⟨h1, h2⟩ := h
  simp only [_ParseLine, h1]
  rw [if_neg (by simp), if_neg (by simpa using h2)]

theorem parseLine_eq_none_iff (line : List Char) :
    _ParseLine line = Except.ok none ↔ ignoredLine line = true := by
  constructor
  · intro h
    by_cases hi : ignoredLine line = true
    · exact hi
    · exfalso
      rw [parseLine_not_ignored line (by simpa using hi)] at h
      split at h <;> simp_all
  · intro h
    simp only [ignoredLine, Bool.or_eq_true] at h
    rcases h with h | h
    · simp [_ParseLine, h]
    · by_cases h1 : pyStartsWith commentMarker (pyStrip line) = true
      · simp [_ParseLine, h1]
      · simp only [_ParseLine, h1]
        rw [if_neg (by simp), if_pos (by simpa using h)]

theorem parseLines_error_of_mem (lines : List (List Char)) (l : List Char)
    (e : PyErr) (hmem : l ∈ lines) (hl : _ParseLine l = Except.error e) :
    ∃ eAbort, ParseLines lines = Except.error eAbort := by
  induction lines with
  | nil => simp at hmem
  | cons a as ih =>
    rcases List.mem_cons.mp hmem with rfl | hmem2
    · exact ⟨e, by simp [ParseLines, hl]⟩
    · rcases ih hmem2 with ⟨e2, he2⟩
      cases hp : _ParseLine a with
      | error e3 => exact ⟨e3, by simp [ParseLines, hp]⟩
      | ok og =>
        cases og with
        | none => exact ⟨e2, by simp [ParseLines, hp, he2]⟩
        | some g => exact ⟨e2, by simp [ParseLines, hp, he2]⟩

theorem submissionOf_ite (c : Prop) [Decidable c] :
    submissionOf? (α := α)
        (if c then Event.loginfo reachedMsg else Event.logerr failedMsg) =
      none := by
  by_cases hc : c <;> simp [hc, submissionOf?]

theorem outcomeOf_ite (c : Prop) [Decidable c] :
    outcomeOf? (α := α)
        (if c then Event.loginfo reachedMsg else Event.logerr failedMsg) =
      some (decide c) := by
  by_cases hc : c <;> simp [hc, outcomeOf?]

theorem navFrom_submissions [Zero α] [Div α] [OfNat α 2]
    (self : GoalsSequencer α) (i : Nat) (goals : List (GoalRecord α)) :
    (NavigateToGoalsFrom self i goals).filterMap submissionOf? =
      List.zipWith (requestFor self) (List.range' i goals.length) goals := by
  induction goals generalizing i with
  | nil => simp [NavigateToGoalsFrom]
  | cons g gs ih =>
    simp only [NavigateToGoalsFrom, List.length_cons, List.range'_succ,
      List.zipWith_cons_cons, _NavigateToGoal, List.cons_append,
      List.filterMap_cons, List.filterMap_append, submissionOf_ite]
    simp [submissionOf?, ih]

theorem navFrom_outcomes [Zero α] [Div α] [OfNat α 2]
    (self : GoalsSequencer α) (i : Nat) (goals : List (GoalRecord α)) :
    (NavigateToGoalsFrom self i goals).filterMap outcomeOf? =
      (List.range' i goals.length).map
        (fun j => decide (self.service j = GoalStatus.SUCCEEDED)) := by
  induction goals generalizing i with
  | nil => simp [NavigateToGoalsFrom]
  | cons g gs ih =>
    simp only [NavigateToGoalsFrom, List.length_cons, List.range'_succ,
      List.map_cons, _NavigateToGoal, List.cons_append,
      List.filterMap_cons, List.filterMap_append, outcomeOf_ite]
    simp [outcomeOf?, ih]

theorem navFrom_eq_join [Zero α] [Div α] [OfNat α 2] (self : GoalsSequencer α)
    (i : Nat) (goals : List (GoalRecord α)) :
    NavigateToGoalsFrom self i goals =
      (List.zipWith (perGoalTrace self) (List.range' i goals.length) goals).flatten := by
  induction goals generalizing i with
  | nil => simp [NavigateToGoalsFrom]
  | cons g gs ih =>
    simp only [NavigateToGoalsFrom, List.length_cons, List.range'_succ,
      List.zipWith_cons_cons, List.flatten_cons, ih]
    simp [perGoalTrace, _NavigateToGoal]

/-- C1: `NavigateToGoals` processes the records strictly in sequence
order: its trace contains exactly one submission per record, the `i`-th
submission being the request built from the `i`-th record, and exactly
one outcome log line per record, at info severity when the service
reports SUCCEEDED for that goal and at error severity otherwise — so a
failed goal neither aborts the sequence nor is retried, and `n` goals
yield exactly `n` submissions in order.  The closing conjuncts evaluate
the three-goal success, failure, success run: three submissions and the
outcome pattern info, error, info. -/
theorem navigateToGoals_submits_every_goal_in_order
    [Zero α] [Div α] [OfNat α 2]
    (self : GoalsSequencer α) (goals : List (GoalRecord α)) :
    ((NavigateToGoals self goals).filterMap submissionOf? =
        List.zipWith (requestFor self) (List.range goals.length) goals
      ∧ (NavigateToGoals self goals).filterMap outcomeOf? =
        (List.range goals.length).map
          (fun i => decide (self.service i = GoalStatus.SUCCEEDED)))
    ∧ ((NavigateToGoals demoSequencer3 demoGoals3).filterMap outcomeOf? =
        [true, false, true]
      ∧ ((NavigateToGoals demoSequencer3 demoGoals3).filterMap
          submissionOf?).length = 3) := by
  refine ⟨⟨?_, ?_⟩, by with_unfolding_all decide, by with_unfolding_all decide⟩
  · rw [NavigateToGoals, navFrom_submissions, List.range_eq_range']
  · rw [NavigateToGoals, navFrom_outcomes, List.range_eq_range']

/-- C2: on a well-formed file (no line raises an exception), the parse
loop returns exactly one `GoalRecord` per line that is neither a
comment nor blank, in file order: the result is the in-order
`filterMap` of the per-line records and its length is the number of
non-ignored lines.  A file of only comments and blank lines therefore
parses to the empty sequence. -/
theorem parse_one_record_per_goal_line (lines : List (List Char))
    (h : lines.all parseOk = true) :
    ParseLines lines = Except.ok (lines.filterMap recordOf?) ∧
    (lines.filterMap recordOf?).length =
      (lines.filter (fun l => !ignoredLine l)).length := by
  induction lines with
  | nil => simp [ParseLines]
  | cons a as ih =>
    rw [List.all_cons, Bool.and_eq_true] at h
    obtain ⟨ha, has⟩ := h
    obtain ⟨ih1, ih2⟩ := ih has
    cases hp : _ParseLine a with
    | error e => simp [parseOk, hp] at ha
    | ok og =>
      cases og with
      | none =>
        have hig : ignoredLine a = true := (parseLine_eq_none_iff a).mp hp
        have hrec : recordOf? a = none := by simp [recordOf?, hp]
        constructor
        · simp [ParseLines, hp, List.filterMap_cons, hrec, ih1]
        · simp [List.filterMap_cons, hrec, List.filter_cons, hig, ih2]
      | some g =>
        have hig : ignoredLine a = false := by
          by_cases hi : ignoredLine a = true
          · have h2 := (parseLine_eq_none_iff a).mpr hi
            rw [hp] at h2
            simp at h2
          · simpa using hi
        have hrec : recordOf? a = some g := by simp [recordOf?, hp]
        constructor
        · simp [ParseLines, hp, List.filterMap_cons, hrec, ih1]
        · simp [List.filterMap_cons, hrec, List.filter_cons, hig, ih2]

/-- Witness for C2 at the sample file of the source docstring: one
comment line, two record lines and one blank line. -/
theorem parse_one_record_per_goal_line_witness :
    ParseLines demoFile = Except.ok (demoFile.filterMap recordOf?) ∧
    (demoFile.filterMap recordOf?).length =
      (demoFile.filter (fun l => !ignoredLine l)).length :=
  parse_one_record_per_goal_line demoFile (by with_unfolding_all decide)

/-- C3 counterexample: a record with a fourth comma-separated field
does not make the parse fail — the parser reads only parts 0, 1 and 2,
so the extra field is silently ignored and the one-line file parses
successfully. -/
theorem fourth_field_is_accepted_not_rejected :
    ParseLines ["x = 1.0, y = 2.0, theta = 3.0, z = 4.0".data] =
      Except.ok [{ x := 1, y := 2, theta := 3 }] := by
  with_unfolding_all decide

/-- C3 amended: a record accepted by the parser has at least three
comma-separated fields whose first three are valid `x`, `y`, `theta`
fields in that order; fields after the third are ignored rather than
rejected; and a record that raises anywhere in the file aborts the
entire parse with no partial results and no skipping of bad lines. -/
theorem record_accepted_iff_first_three_fields_valid
    (line : List Char) (g : GoalRecord ℚ) (hig : ignoredLine line = false) :
    (_ParseLine line = Except.ok (some g) ↔
      ∃ p0 p1 p2,
        (pySplit ',' (pyStrip line))[0]? = some p0 ∧
        (pySplit ',' (pyStrip line))[1]? = some p1 ∧
        (pySplit ',' (pyStrip line))[2]? = some p2 ∧
        _ExtractValue nameX p0 = Except.ok g.x ∧
        _ExtractValue nameY p1 = Except.ok g.y ∧
        _ExtractValue nameTheta p2 = Except.ok g.theta)
    ∧ ∀ (lines : List (List Char)) (e : PyErr), line ∈ lines →
        _ParseLine line = Except.error e →
        ∃ eAbort, ParseLines lines = Except.error eAbort := by
  constructor
  · rw [parseLine_not_ignored line hig]
    constructor
    · intro h
      cases hf : extractFields (pySplit ',' (pyStrip line)) with
      | error e => rw [hf] at h; simp at h
      | ok g2 =>
        rw [hf] at h
        simp only [Except.ok.injEq, Option.some.injEq] at h
        subst h
        exact (extractFields_ok_iff _ g2).mp hf
    · intro hex
      rw [(extractFields_ok_iff _ g).mpr hex]
  · intro lines e hmem hl
    exact parseLines_error_of_mem lines line e hmem hl

/-- Witness for C3 at the four-field line: its acceptance is equivalent
to the validity of its first three fields, which hold concretely. -/
theorem record_accepted_iff_first_three_fields_valid_witness :
    ∃ p0 p1 p2,
      (pySplit ',' (pyStrip "x = 1.0, y = 2.0, theta = 3.0, z = 4.0".data))[0]? =
          some p0 ∧
      (pySplit ',' (pyStrip "x = 1.0, y = 2.0, theta = 3.0, z = 4.0".data))[1]? =
          some p1 ∧
      (pySplit ',' (pyStrip "x = 1.0, y = 2.0, theta = 3.0, z = 4.0".data))[2]? =
          some p2 ∧
      _ExtractValue nameX p0 = Except.ok (1 : ℚ) ∧
      _ExtractValue nameY p1 = Except.ok (2 : ℚ) ∧
      _ExtractValue nameTheta p2 = Except.ok (3 : ℚ) :=
  ((record_accepted_iff_first_three_fields_valid
        "x = 1.0, y = 2.0, theta = 3.0, z = 4.0".data
        { x := 1, y := 2, theta := 3 }
        (by with_unfolding_all decide)).1).mp (by with_unfolding_all decide)

/-- C4: when the stripped variable name before the `=` of a field
differs from the name expected at that position, `_ExtractValue` fails
with the malformed-record `NameError` carrying the expected and the
found name; on the swapped-field example line the parse fails naming
`x` as expected and `y` as found. -/
theorem wrong_variable_name_fails_with_name_error
    (name part seg : List Char)
    (h0 : (pySplit '=' part)[0]? = some seg) (hne : pyStrip seg ≠ name) :
    _ExtractValue name part = Except.error (PyErr.nameError name (pyStrip seg))
    ∧ _ParseLine "y = 1.5, x = -2.25, theta = 0.0".data =
        Except.error (PyErr.nameError nameX nameY) :=
  ⟨extract_name_mismatch name part seg h0 hne, by with_unfolding_all decide⟩

/-- Witness for C4 at the field `y = 1.5` checked against the expected
name `x`. -/
theorem wrong_variable_name_fails_with_name_error_witness :
    _ExtractValue nameX "y = 1.5".data =
        Except.error (PyErr.nameError nameX nameY)
    ∧ _ParseLine "y = 1.5, x = -2.25, theta = 0.0".data =
        Except.error (PyErr.nameError nameX nameY) :=
  wrong_variable_name_fails_with_name_error nameX "y = 1.5".data "y ".data
    (by with_unfolding_all decide) (by with_unfolding_all decide)

/-- C5: when the text after the `=` of a field does not parse as a
floating-point number, `_ExtractValue` fails with the `ValueError`
carrying that segment; the example line fails on the segment `abc`;
and any raising line aborts the whole parse, so no goal list is
produced and no goals are attempted. -/
theorem nonnumeric_value_fails_with_value_error
    (name part seg0 seg1 : List Char)
    (h0 : (pySplit '=' part)[0]? = some seg0) (hn : pyStrip seg0 = name)
    (h1 : (pySplit '=' part)[1]? = some seg1)
    (hv : pyFloat? (pyStrip seg1) = none) :
    _ExtractValue name part = Except.error (PyErr.valueError (pyStrip seg1))
    ∧ _ParseLine "x = abc, y = 1.0, theta = 0.0".data =
        Except.error (PyErr.valueError ['a', 'b', 'c'])
    ∧ ∀ (lines : List (List Char)) (l : List Char) (e : PyErr),
        l ∈ lines → _ParseLine l = Except.error e →
        ∃ eAbort, ParseLines lines = Except.error eAbort :=
  ⟨extract_value_error name part seg0 seg1 h0 hn h1 hv,
   by with_unfolding_all decide,
   fun lines l e hmem hl => parseLines_error_of_mem lines l e hmem hl⟩

/-- Witness for C5 at the field `x = abc` checked against the expected
name `x`. -/
theorem nonnumeric_value_fails_with_value_error_witness :
    _ExtractValue nameX "x = abc".data =
        Except.error (PyErr.valueError ['a', 'b', 'c'])
    ∧ _ParseLine "x = abc, y = 1.0, theta = 0.0".data =
        Except.error (PyErr.valueError ['a', 'b', 'c'])
    ∧ ∀ (lines : List (List Char)) (l : List Char) (e : PyErr),
        l ∈ lines → _ParseLine l = Except.error e →
        ∃ eAbort, ParseLines lines = Except.error eAbort :=
  nonnumeric_value_fails_with_value_error nameX "x = abc".data
    "x ".data " abc".data
    (by with_unfolding_all decide) (by with_unfolding_all decide)
    (by with_unfolding_all decide) (by with_unfolding_all decide)

/-- C6: the orientation of the request built for a record is the unit
quaternion of the rotation of theta about the z axis, componentwise
`(0, 0, sin(theta/2), cos(theta/2))`; theta 0 yields `(0, 0, 0, 1)`
and theta pi yields `(0, 0, 1, 0)`; and the orientation is a pure
function of theta alone, unchanged by the frame id, the stamp and the
position. -/
theorem orientation_is_z_axis_half_angle_quaternion
    (frame : List Char) (now : Nat) (x y θ : ℝ) :
    ((_CreateMoveBaseGoal Real.sin Real.cos frame now
        { x := x, y := y, theta := θ }).orientation =
      { x := 0, y := 0, z := Real.sin (θ / 2), w := Real.cos (θ / 2) })
    ∧ (_CreateMoveBaseGoal Real.sin Real.cos frame now
        { x := x, y := y, theta := 0 }).orientation =
      { x := 0, y := 0, z := 0, w := 1 }
    ∧ (_CreateMoveBaseGoal Real.sin Real.cos frame now
        { x := x, y := y, theta := Real.pi }).orientation =
      { x := 0, y := 0, z := 1, w := 0 }
    ∧ ∀ (frame2 : List Char) (now2 : Nat) (x2 y2 : ℝ),
        (_CreateMoveBaseGoal Real.sin Real.cos frame2 now2
          { x := x2, y := y2, theta := θ }).orientation =
        (_CreateMoveBaseGoal Real.sin Real.cos frame now
          { x := x, y := y, theta := θ }).orientation := by
  refine ⟨rfl, ?_, ?_, fun _ _ _ _ => rfl⟩
  · simp [_CreateMoveBaseGoal, array_to_quaternion, quaternion_about_axis]
  · simp [_CreateMoveBaseGoal, array_to_quaternion, quaternion_about_axis,
      Real.sin_pi_div_two, Real.cos_pi_div_two]

/-- C7 counterexample: besides the announcement print, the submission
and the outcome log line, the trace of a goal also contains the
`print(moveBaseGoal)` output emitted inside `_CreateMoveBaseGoal`
(source line 160): a one-goal run has four observable events, not
three, and not every event is among the effects the claim permits. -/
theorem trace_contains_extra_debug_print :
    (NavigateToGoals demoSequencer1
        [{ x := 0, y := 0, theta := 0 }]).all claimedEffect = false
    ∧ (NavigateToGoals demoSequencer1
        [{ x := 0, y := 0, theta := 0 }]).length = 4 := by
  with_unfolding_all decide

/-- C7 amended: for every goal processed by the sequencer the
observable side effects are exactly four, in order: the announcement
print of the goal, the print of the constructed request, the
submission of that request, and one outcome log line at info severity
when the service reports SUCCEEDED and at error severity otherwise;
nothing else is emitted. -/
theorem trace_is_exactly_four_events_per_goal
    [Zero α] [Div α] [OfNat α 2]
    (self : GoalsSequencer α) (goals : List (GoalRecord α)) :
    NavigateToGoals self goals =
      (List.zipWith
        (fun i g =>
          [Event.printNav g,
           Event.printGoalMsg (requestFor self i g),
           Event.sendGoal (requestFor self i g),
           if self.service i = GoalStatus.SUCCEEDED then Event.loginfo reachedMsg
           else Event.logerr failedMsg])
        (List.range goals.length) goals).flatten := by
  rw [NavigateToGoals, navFrom_eq_join, List.range_eq_range']
  rfl

/-- C8: a line contributes nothing to the output and raises no error
exactly when its stripped content starts with the two-character marker
`//` or strips to the empty string; every other line is processed as a
goal record. -/
theorem line_ignored_iff_comment_or_blank (line : List Char) :
    _ParseLine line = Except.ok none ↔
      pyStartsWith commentMarker (pyStrip line) = true ∨ pyStrip line = [] := by
  rw [parseLine_eq_none_iff]
  simp [ignoredLine, List.length_eq_zero]

/-- Witness for C8 at an indented comment line. -/
theorem line_ignored_iff_comment_or_blank_witness :
    pyStartsWith commentMarker (pyStrip "  // note".data) = true ∨
      pyStrip "  // note".data = [] :=
  (line_ignored_iff_comment_or_blank "  // note".data).mp
    (by with_unfolding_all decide)

/-- C9: the parse result is a pure function of the file text — it does
not depend on the state of the parser object — and parsing the same
content a second time, with the object state left behind by the first
parse, yields a structurally equal goal sequence. -/
theorem parse_deterministic_and_idempotent (p1 p2 : GoalsFileParser)
    (path : List Char) (fileLines : List (List Char)) :
    (Parse p1 path fileLines).2 = (Parse p2 path fileLines).2
    ∧ (Parse (Parse p1 path fileLines).1 path fileLines).2 =
        (Parse p1 path fileLines).2 :=
  ⟨rfl, rfl⟩

/-- C10: a non-ignored line with fewer than three comma-separated
fields, and one whose field contains no `=` sign, both drive the
parser into an out-of-range list subscript — the `none` branch of the
total embedding is reached — so these malformed records fail with the
generic index error rather than the named `NameError` or
`ValueError`. -/
theorem malformed_line_reaches_index_error :
    (ignoredLine "x = 1.0, y = 2.0".data = false
      ∧ _ParseLine "x = 1.0, y = 2.0".data = Except.error PyErr.indexError)
    ∧ (ignoredLine "x, y = 1.0, theta = 2.0".data = false
      ∧ _ParseLine "x, y = 1.0, theta = 2.0".data =
          Except.error PyErr.indexError) := by
  with_unfolding_all decide

end Ardros
